import Mathlib

/-!
Shallow embedding of the SuNSS tracker logic
(python/sunssActor/sunssTracker.py): the strategy state machine
(SunssStrategy / IdleStrategy / UntrackedStrategy / GuidingStrategy),
the tracker orchestration (SunssTracker.resolveStrategy,
SunssTracker.update), and the raw-status normalization
(SunssTracker.convertRawStatus, SunssTracker._convertRaDecToDegrees).

Python strings stay strings; Python dicts with a fixed key set become
structures with Option fields, where a missing key raises KeyError on
access; code that can raise returns an Except value.  The sun-altitude
test sunIsDown reads the wall clock and an ephemeris, so the embedded
update functions take its Boolean result as an explicit argument.
Sexagesimal angle parsing is delegated by the source to the astropy
library; it is modelled from the spec where marked below.
-/

deriving instance DecidableEq for Except

namespace Sunss

/-- Python exceptions that the embedded code can raise. -/
inductive PyExc where
  | attributeError
  | typeError
  | keyError (key : String)
  | valueError
deriving DecidableEq

/-- The str(e) text interpolated into the boom diagnostic string. -/
def pyExcMessage : PyExc → String
  | PyExc.attributeError => "'dict' object has no attribute 'ra_cmd'"
  | PyExc.typeError => "'NoneType' object is not callable"
  | PyExc.keyError key => "'" ++ key ++ "'"
  | PyExc.valueError => "invalid angle"

/-- The dict built by SunssTracker.convertRawStatus and passed to
strategy update as newState. -/
structure Snapshot where
  ra_cmd : Rat
  dec_cmd : Rat
  ra : Rat
  dec : Rat
  ra_offset : String
  dec_offset : String
  shutter : String
  alt : Rat
  driveMode : String
deriving DecidableEq

/-- The mutable per-instance state of a SunssStrategy object:
ra_cmd, dec_cmd and sunssState as set by SunssStrategy.__init__. -/
structure StrategyState where
  ra_cmd : Option Rat
  dec_cmd : Option Rat
  sunssState : String
deriving DecidableEq

/-- SunssStrategy.__init__ defaults: ra_cmd=None, dec_cmd=None,
sunssState=stopped. -/
def initState : StrategyState :=
  { ra_cmd := Option.none, dec_cmd := Option.none, sunssState := "stopped" }

/-- SunssStrategy.sunssIsRunning: sunssState != stopped. -/
def sunssIsRunning (s : StrategyState) : Bool :=
  s.sunssState ≠ "stopped"

/-- SunssStrategy.stopSunss: set sunssState to stopped, return the stop
action. -/
def stopSunss (s : StrategyState) : StrategyState × String :=
  ({ s with sunssState := "stopped" }, "stop")

/-- The f-string the doTrack branch of startSunss attempts to build. -/
def trackCmd (ra dec : Rat) : String :=
  "track ra=" ++ toString ra ++ (" dec=" ++ toString dec)

/-- SunssStrategy.startSunss: record ra_cmd and dec_cmd from the new
snapshot, set sunssState to tracking or running.  In the doTrack branch
the return expression reads newState.ra_cmd with attribute access, but
newState is a plain dict, so the statement raises AttributeError after
the state was already mutated. -/
def startSunss (_s : StrategyState) (newState : Snapshot) (doTrack : Bool) :
    StrategyState × Except PyExc String :=
  let s2 : StrategyState :=
    { ra_cmd := some newState.ra_cmd, dec_cmd := some newState.dec_cmd,
      sunssState := if doTrack then "tracking" else "running" }
  if doTrack then
    (s2, Except.error PyExc.attributeError)
  else
    (s2, Except.ok "startExposures")

/-- Lift the infallible stopSunss result into the Except-valued update
range. -/
def okA (p : StrategyState × String) : StrategyState × Except PyExc String :=
  (p.1, Except.ok p.2)

/-- IdleStrategy.update: do nothing. -/
def IdleStrategy.update (s : StrategyState) (_newState : Snapshot)
    (_sunDown : Bool) : StrategyState × Except PyExc String :=
  (s, Except.ok "")

/-- UntrackedStrategy.update: observe without tracking whenever the dome
is open, the drive is not Pointing, and the sun is below the horizon. -/
def UntrackedStrategy.update (s : StrategyState) (newState : Snapshot)
    (sunDown : Bool) : StrategyState × Except PyExc String :=
  if sunssIsRunning s then
    if newState.shutter ≠ "OPEN" then okA (stopSunss s)
    else if newState.driveMode = "Pointing" then okA (stopSunss s)
    else (s, Except.ok "")
  else
    if newState.shutter ≠ "OPEN" then (s, Except.ok "")
    else if newState.driveMode = "Pointing" then (s, Except.ok "")
    else if ¬ sunDown then (s, Except.ok "")
    else startSunss s newState false

/-- GuidingStrategy.update: start tracking when guiding begins, stop on
shutter close or a Slewing or Pointing drive mode. -/
def GuidingStrategy.update (s : StrategyState) (newState : Snapshot)
    (sunDown : Bool) : StrategyState × Except PyExc String :=
  if sunssIsRunning s then
    if newState.shutter ≠ "OPEN" then okA (stopSunss s)
    else if newState.driveMode = "Slewing" ∨ newState.driveMode = "Pointing" then
      okA (stopSunss s)
    else (s, Except.ok "")
  else
    if newState.shutter ≠ "OPEN" then (s, Except.ok "")
    else if newState.driveMode ≠ "Guiding" then (s, Except.ok "")
    else if ¬ sunDown then (s, Except.ok "")
    else startSunss s newState true

/-- The closed set of strategy classes of SunssTracker.strategies. -/
inductive StrategyKind where
  | idle
  | untracked
  | guiding
deriving DecidableEq

/-- Dynamic dispatch of update over the strategy subclasses. -/
def SunssStrategy.update (k : StrategyKind) (s : StrategyState)
    (newState : Snapshot) (sunDown : Bool) :
    StrategyState × Except PyExc String :=
  match k with
  | StrategyKind.idle => IdleStrategy.update s newState sunDown
  | StrategyKind.untracked => UntrackedStrategy.update s newState sunDown
  | StrategyKind.guiding => GuidingStrategy.update s newState sunDown

/-- The strategies class dict: name to strategy class; dict.get with a
default of None returns none on an unknown name and never raises. -/
def strategies (name : String) : Option StrategyKind :=
  if name = "untracked" then some StrategyKind.untracked
  else if name = "idle" then some StrategyKind.idle
  else if name = "guiding" then some StrategyKind.guiding
  else Option.none

/-- The tracker fields the embedded logic touches: the active strategy
instance and the recorded strategy name. -/
structure Tracker where
  strategyKind : StrategyKind
  strategy : StrategyState
  strategyName : String
deriving DecidableEq

/-- SunssTracker.resolveStrategy: a None or default name means
untracked; the class is looked up with dict.get (never raising), and on
an unknown name the call None() raises TypeError before either of the
assignments to self.strategy and self.strategyName runs, so the tracker
is unchanged. -/
def resolveStrategy (t : Tracker) (name : Option String) :
    Tracker × Except PyExc Unit :=
  let n := match name with
    | Option.none => "untracked"
    | some s => if s = "default" then "untracked" else s
  match strategies n with
  | some k =>
      ({ strategyKind := k, strategy := initState, strategyName := n },
       Except.ok ())
  | Option.none => (t, Except.error PyExc.typeError)

/-- Split a character list at every occurrence of the separator. -/
def splitOnChar (sep : Char) : List Char → List (List Char)
  | [] => [[]]
  | c :: cs =>
    let r := splitOnChar sep cs
    if c = sep then [] :: r
    else
      match r with
      | [] => [[c]]
      | g :: gs => (c :: g) :: gs

/-- Digits-only string of at least one character to a natural number. -/
def natOfDigits (l : List Char) : Option Nat :=
  if l = [] then Option.none
  else if l.all Char.isDigit then
    some (l.foldl (fun acc c => 10 * acc + (c.toNat - 48)) 0)
  else Option.none

/-- One sexagesimal field: digits with an optional fractional part. -/
def ratOfField (l : List Char) : Option Rat :=
  match splitOnChar '.' l with
  | [w] => (natOfDigits w).map (fun n => (n : Rat))
  | [w, f] =>
    match natOfDigits w, natOfDigits f with
    | some wn, some fn => some ((wn : Rat) + (fn : Rat) / ((10 : Rat) ^ f.length))
    | _, _ => Option.none
  | _ => Option.none

/-- Modelled from the spec: the astropy sexagesimal parser used by
coords.Angle is not part of this repository; per the spec the string is
an optionally signed colon-separated triple parsed as
sign times (h + m/60 + s/3600), failing on anything malformed. -/
def parseSexagesimal (s : String) : Option Rat :=
  let p : Rat × List Char :=
    match s.toList with
    | '+' :: cs => (1, cs)
    | '-' :: cs => (-1, cs)
    | cs => (1, cs)
  match splitOnChar ':' p.2 with
  | [h, m, sec] =>
    match ratOfField h, ratOfField m, ratOfField sec with
    | some hv, some mv, some sv => some (p.1 * (hv + mv / 60 + sv / 3600))
    | _, _, _ => Option.none
  | _ => Option.none

/-- Modelled from the spec: coords.Angle(s, unit).deg; a value parsed
as hourangle is scaled by 15 degrees per hour, and a malformed string
raises. -/
def angleDeg (s : String) (hourangle : Bool) : Except PyExc Rat :=
  match parseSexagesimal s with
  | some v => Except.ok (if hourangle then 15 * v else v)
  | Option.none => Except.error PyExc.valueError

/-- SunssTracker._convertRaDecToDegrees: RA in H:M:S and Dec in D:M:S to
decimal degrees. -/
def _convertRaDecToDegrees (raStr decStr : String) :
    Except PyExc (Rat × Rat) :=
  match angleDeg raStr true, angleDeg decStr false with
  | Except.ok ra, Except.ok dec => Except.ok (ra, dec)
  | Except.error e, _ => Except.error e
  | _, Except.error e => Except.error e

/-- The Teldrive normalization of convertRawStatus: find the first
open-parenthesis character and truncate the string there; if there is
none, keep the string as is. -/
def normalizeDrive (drive : String) : String :=
  List.asString (drive.toList.takeWhile (fun c => c ≠ '('))

/-- The raw gcam status dict, restricted to the keys convertRawStatus
reads; a missing key (field none) raises KeyError on access. -/
structure RawStatus where
  ra_cmd : Option String
  dec_cmd : Option String
  ra : Option String
  dec : Option String
  ra_offset : Option String
  dec_offset : Option String
  teldrive : Option String
  shutter : Option String
  alt : Option Rat
deriving DecidableEq

/-- Python dict subscript access: the value, or KeyError when absent. -/
def getKey {α : Type} (v : Option α) (key : String) : Except PyExc α :=
  match v with
  | some x => Except.ok x
  | Option.none => Except.error (PyExc.keyError key)

/-- SunssTracker.convertRawStatus: convert the raw gcam status dict to
the normalized snapshot dict, in source order. -/
def convertRawStatus (raw : RawStatus) : Except PyExc Snapshot := do
  let raCmdStr ← getKey raw.ra_cmd "FITS.SBR.RA_CMD"
  let decCmdStr ← getKey raw.dec_cmd "FITS.SBR.DEC_CMD"
  let cmdPair ← _convertRaDecToDegrees raCmdStr decCmdStr
  let raStr ← getKey raw.ra "FITS.SBR.RA"
  let decStr ← getKey raw.dec "FITS.SBR.DEC"
  let curPair ← _convertRaDecToDegrees raStr decStr
  let drive0 ← getKey raw.teldrive "STATL.TELDRIVE"
  let drive := normalizeDrive drive0
  let shutter ← getKey raw.shutter "STATL.DOMESHUTTER_POS"
  let alt ← getKey raw.alt "FITS.SBR.ALTITUDE"
  let raOff ← getKey raw.ra_offset "STATL.RA_OFFSET"
  let decOff ← getKey raw.dec_offset "STATL.DEC_OFFSET"
  Except.ok
    { ra_cmd := cmdPair.1, dec_cmd := cmdPair.2,
      ra := curPair.1, dec := curPair.2,
      ra_offset := raOff, dec_offset := decOff,
      shutter := shutter, alt := alt, driveMode := drive }

/-- The log line written for every processed update: timestamp, status
fields, and the decision as the last field.  The fixed-decimal float
formatting of the source is abstracted by toString on exact rationals. -/
def logLine (timeStr : String) (st : Snapshot) (act : String) : String :=
  timeStr ++ " " ++ toString st.ra_cmd ++ " " ++ toString st.dec_cmd ++ " " ++
    toString st.ra ++ " " ++ toString st.dec ++ " " ++
    st.ra_offset ++ " " ++ st.dec_offset ++ " " ++ st.shutter ++ " " ++
    toString st.alt ++ " " ++ st.driveMode ++ " " ++ act

/-- SunssTracker.takeAction: append the line to the action log and
dispatch the action string through actor.callCommand.  File appends and
command dispatches are modelled as the lists of lines and commands the
call emits. -/
def takeAction (msg act : String) : List String × List String :=
  ([msg], [act])

/-- The observable outcome of one successful SunssTracker.update call:
the tracker afterwards, the decision string, the lines appended to the
all-snapshots log and to the action log, and the dispatched commands. -/
structure UpdateResult where
  tracker : Tracker
  act : String
  allLog : List String
  actionLog : List String
  commands : List String
deriving DecidableEq

/-- The try/except around the strategy update inside
SunssTracker.update: an ok action passes through, a raised exception
becomes the boom diagnostic string. -/
def decisionOf (r : Except PyExc String) : String :=
  match r with
  | Except.ok a => a
  | Except.error e => "boom: " ++ pyExcMessage e

/-- The body of SunssTracker.update once normalization has produced a
status snapshot: run the active strategy inside try/except turning an
exception into the boom diagnostic string, always append one line to
the all-snapshots log, and take the action exactly when the decision
string is non-empty. -/
def updateWithStatus (t : Tracker) (status : Snapshot) (timeStr : String)
    (sunDown : Bool) : UpdateResult :=
  let su := SunssStrategy.update t.strategyKind t.strategy status sunDown
  let act := decisionOf su.2
  let msg := logLine timeStr status act
  let acted := if act ≠ "" then takeAction msg act else ([], [])
  { tracker := { t with strategy := su.1 }, act := act,
    allLog := [msg], actionLog := acted.1, commands := acted.2 }

/-- SunssTracker.update: normalize the raw status (outside the try
block, so a normalization failure propagates), then run the strategy
and the logging and dispatch. -/
def SunssTracker.update (t : Tracker) (raw : RawStatus) (timeStr : String)
    (sunDown : Bool) : Except PyExc UpdateResult :=
  match convertRawStatus raw with
  | Except.error e => Except.error e
  | Except.ok status => Except.ok (updateWithStatus t status timeStr sunDown)

/-! Concrete fixtures used by witnesses and counterexamples. -/

/-- A normalized snapshot with the dome open and the drive guiding. -/
def guidingSnap : Snapshot :=
  { ra_cmd := 150, dec_cmd := 20, ra := 150, dec := 20, ra_offset := "0",
    dec_offset := "0", shutter := "OPEN", alt := 60, driveMode := "Guiding" }

/-- The same snapshot after the drive switched to Tracking. -/
def trackingSnap : Snapshot :=
  { guidingSnap with driveMode := "Tracking" }

/-- A raw status dict with every key present and well-formed. -/
def rawFull : RawStatus :=
  { ra_cmd := some "10:00:00", dec_cmd := some "+20:00:00",
    ra := some "10:00:00", dec := some "+20:00:00",
    ra_offset := some "0", dec_offset := some "0",
    teldrive := some "Guiding(HSC)", shutter := some "OPEN", alt := some 60 }

/-- The raw status dict with the RA_CMD key missing. -/
def rawMissing : RawStatus :=
  { rawFull with ra_cmd := Option.none }

/-- A freshly constructed tracker on the default untracked strategy. -/
def tracker0 : Tracker :=
  { strategyKind := StrategyKind.untracked, strategy := initState,
    strategyName := "untracked" }

/-- A tracker on the guiding strategy with a fresh stopped instance. -/
def guidingTracker : Tracker :=
  { strategyKind := StrategyKind.guiding, strategy := initState,
    strategyName := "guiding" }

/-! Helper lemmas shared by the claim theorems. -/

theorem sunssIsRunning_true {s : StrategyState} (h : s.sunssState ≠ "stopped") :
    sunssIsRunning s = true := by
  simp [sunssIsRunning, h]

theorem sunssIsRunning_false {s : StrategyState} (h : s.sunssState = "stopped") :
    sunssIsRunning s = false := by
  simp [sunssIsRunning, h]

theorem trackCmd_data_head (r d : Rat) : (trackCmd r d).data.head? = some 't' :=
  rfl

theorem ne_trackCmd_of_head {a : String} (h : a.data.head? ≠ some 't')
    (r d : Rat) : a ≠ trackCmd r d := by
  intro he
  apply h
  rw [he]
  exact trackCmd_data_head r d

theorem empty_ne_trackCmd (r d : Rat) : "" ≠ trackCmd r d :=
  ne_trackCmd_of_head (by decide) r d

theorem stop_ne_trackCmd (r d : Rat) : "stop" ≠ trackCmd r d :=
  ne_trackCmd_of_head (by decide) r d

theorem boom_ne_empty (m : String) : ("boom: " ++ m) ≠ "" := by
  intro h
  have h2 : "boom: ".data ++ m.data = "".data := by
    rw [← String.data_append, h]
  rw [List.append_eq_nil] at h2
  exact absurd h2.1 (by decide)

theorem update_eq_ok {t : Tracker} {raw : RawStatus} {ts : String}
    {sd : Bool} {status : Snapshot}
    (h : convertRawStatus raw = Except.ok status) :
    SunssTracker.update t raw ts sd
      = Except.ok (updateWithStatus t status ts sd) := by
  rw [SunssTracker.update, h]

theorem takeWhile_eq_self_of_all {p : Char → Bool} (l : List Char)
    (h : ∀ c ∈ l, p c) : l.takeWhile p = l := by
  induction l with
  | nil => rfl
  | cons c cs ih =>
    rw [List.takeWhile_cons_of_pos (h c (List.mem_cons_self c cs))]
    rw [ih (fun x hx => h x (List.mem_cons_of_mem c hx))]

/-! The claim theorems. -/

/-- C10: stopSunss sets sunssState to stopped and returns the stop
action, leaving ra_cmd and dec_cmd exactly as they were, for every
strategy state. -/
theorem stopSunss_frame (s : StrategyState) :
    (stopSunss s).1.ra_cmd = s.ra_cmd ∧ (stopSunss s).1.dec_cmd = s.dec_cmd
    ∧ (stopSunss s).1.sunssState = "stopped" ∧ (stopSunss s).2 = "stop" :=
  ⟨rfl, rfl, rfl, rfl⟩

/-- C9: converting the RA string 10:00:00 as hour angle yields exactly
150 degrees and the Dec string +20:00:00 as degrees yields exactly 20
degrees. -/
theorem convertRaDec_examples :
    _convertRaDecToDegrees "10:00:00" "+20:00:00"
      = Except.ok ((150 : Rat), (20 : Rat)) := by
  with_unfolding_all decide

/-- C8: drive-mode normalization maps Guiding(HSC) to Guiding, leaves
every string without an open parenthesis unchanged, and truncates every
string at its first open parenthesis. -/
theorem normalizeDrive_truncates_at_first_paren :
    normalizeDrive "Guiding(HSC)" = "Guiding"
    ∧ (∀ s : String, '(' ∉ s.data → normalizeDrive s = s)
    ∧ (∀ l1 l2 : List Char, '(' ∉ l1 →
        normalizeDrive (List.asString (l1 ++ '(' :: l2)) = List.asString l1) := by
  refine ⟨by decide, ?_, ?_⟩
  · intro s h
    show List.asString (s.data.takeWhile (fun c => c ≠ '(')) = s
    rw [takeWhile_eq_self_of_all s.data (fun c hc => by
      simp only [decide_eq_true_eq]
      exact fun he => h (he ▸ hc))]
    rfl
  · intro l1 l2 h
    show List.asString ((l1 ++ '(' :: l2).takeWhile (fun c => c ≠ '('))
      = List.asString l1
    rw [List.takeWhile_append_of_pos (fun c hc => by
      simp only [decide_eq_true_eq]
      exact fun he => h (he ▸ hc))]
    rw [List.takeWhile_cons_of_neg (by decide)]
    rw [List.append_nil]

/-- Witness for C8: a string with no parenthesis is left unchanged. -/
theorem normalizeDrive_truncates_at_first_paren_witness :
    normalizeDrive "Guiding" = "Guiding" :=
  normalizeDrive_truncates_at_first_paren.2.1 "Guiding" (by decide)

/-- C3: switching to a strategy name outside idle, untracked, guiding,
default (and None) raises TypeError, from calling the None returned by
dict.get, and returns the tracker with its strategy instance, state and
recorded name untouched. -/
theorem resolveStrategy_unknown_name (t : Tracker) (name : String)
    (h1 : name ≠ "idle") (h2 : name ≠ "untracked") (h3 : name ≠ "guiding")
    (h4 : name ≠ "default") :
    resolveStrategy t (some name) = (t, Except.error PyExc.typeError) := by
  simp [resolveStrategy, strategies, h1, h2, h3, h4]

/-- Witness for C3 at the unknown name bogus. -/
theorem resolveStrategy_unknown_name_witness :
    resolveStrategy tracker0 (some "bogus")
      = (tracker0, Except.error PyExc.typeError) :=
  resolveStrategy_unknown_name tracker0 "bogus" (by decide) (by decide)
    (by decide) (by decide)

/-- C5: on any snapshot whose shutter is not OPEN, a running Untracked
or Guiding instance transitions to stopped and returns the stop action,
whatever the drive mode and the sun state. -/
theorem running_stops_when_shutter_not_open (k : StrategyKind)
    (s : StrategyState) (n : Snapshot) (sd : Bool)
    (hk : k = StrategyKind.untracked ∨ k = StrategyKind.guiding)
    (hrun : s.sunssState ≠ "stopped") (hsh : n.shutter ≠ "OPEN") :
    SunssStrategy.update k s n sd
      = ({ s with sunssState := "stopped" }, Except.ok "stop") := by
  have hb := sunssIsRunning_true hrun
  rcases hk with hk | hk <;> subst hk <;>
    simp [SunssStrategy.update, UntrackedStrategy.update,
      GuidingStrategy.update, okA, stopSunss, hb, hsh]

/-- Witness for C5: a running untracked instance with the shutter
closed. -/
theorem running_stops_when_shutter_not_open_witness :
    SunssStrategy.update StrategyKind.untracked
      { ra_cmd := some 150, dec_cmd := some 20, sunssState := "running" }
      { guidingSnap with shutter := "CLOSED" } true
      = ({ ra_cmd := some 150, dec_cmd := some 20, sunssState := "stopped" },
         Except.ok "stop") :=
  running_stops_when_shutter_not_open StrategyKind.untracked
    { ra_cmd := some 150, dec_cmd := some 20, sunssState := "running" }
    { guidingSnap with shutter := "CLOSED" } true (Or.inl rfl)
    (by decide) (by decide)

/-- C6: on a snapshot with the shutter OPEN, the drive Tracking and the
sun down, a stopped Untracked instance transitions to running and
returns the start action, and a second update with the identical
snapshot returns the empty action and changes nothing. -/
theorem untracked_start_idempotent (s : StrategyState) (n : Snapshot)
    (hs : s.sunssState = "stopped") (hsh : n.shutter = "OPEN")
    (hdm : n.driveMode = "Tracking") :
    UntrackedStrategy.update s n true
      = ({ ra_cmd := some n.ra_cmd, dec_cmd := some n.dec_cmd,
           sunssState := "running" }, Except.ok "startExposures")
    ∧ UntrackedStrategy.update
        { ra_cmd := some n.ra_cmd, dec_cmd := some n.dec_cmd,
          sunssState := "running" } n true
      = ({ ra_cmd := some n.ra_cmd, dec_cmd := some n.dec_cmd,
           sunssState := "running" }, Except.ok "") := by
  constructor
  · rw [UntrackedStrategy.update, sunssIsRunning_false hs]
    simp [startSunss, hsh, hdm]
  · have hr : sunssIsRunning
        { ra_cmd := some n.ra_cmd, dec_cmd := some n.dec_cmd,
          sunssState := "running" } = true := rfl
    rw [UntrackedStrategy.update, hr]
    simp [hsh, hdm]

/-- Witness for C6 at the concrete open-and-tracking snapshot. -/
theorem untracked_start_idempotent_witness :
    UntrackedStrategy.update initState trackingSnap true
      = ({ ra_cmd := some 150, dec_cmd := some 20, sunssState := "running" },
         Except.ok "startExposures")
    ∧ UntrackedStrategy.update
        { ra_cmd := some 150, dec_cmd := some 20, sunssState := "running" }
        trackingSnap true
      = ({ ra_cmd := some 150, dec_cmd := some 20, sunssState := "running" },
         Except.ok "") :=
  untracked_start_idempotent initState trackingSnap rfl (by decide) (by decide)

/-- C1: evaluation at the failing input: a stopped Guiding instance on
a snapshot with the shutter OPEN, the drive Guiding and the sun down
does transition to tracking, but update raises AttributeError from the
dict attribute access in the startSunss return expression instead of
returning the track action; the subsequent update with the drive on
Tracking returns the empty action and keeps the tracking state. -/
theorem guiding_start_raises_instead_of_returning_track :
    GuidingStrategy.update initState guidingSnap true
      = ({ ra_cmd := some 150, dec_cmd := some 20, sunssState := "tracking" },
         Except.error PyExc.attributeError)
    ∧ GuidingStrategy.update
        { ra_cmd := some 150, dec_cmd := some 20, sunssState := "tracking" }
        trackingSnap true
      = ({ ra_cmd := some 150, dec_cmd := some 20, sunssState := "tracking" },
         Except.ok "") := by
  decide

/-- C2 counterexample: on a raw status whose RA_CMD key is missing,
SunssTracker.update propagates the KeyError instead of catching it and
logging a boom decision, because convertRawStatus runs outside the try
block. -/
theorem update_propagates_normalization_failure :
    SunssTracker.update tracker0 rawMissing "2021-01-01T00:00:00" true
      = Except.error (PyExc.keyError "FITS.SBR.RA_CMD") := by
  decide

/-- C2 amended: a normalization failure propagates out of
SunssTracker.update uncaught, producing no log line; an exception
raised by the strategy update itself is caught and recorded as a boom
diagnostic string in the decision field of the single log line, with
the tracker keeping whatever state the strategy left behind, and the
non-empty boom string is also dispatched as a command. -/
theorem update_error_policy (t : Tracker) (raw : RawStatus) (ts : String)
    (sd : Bool) (e : PyExc) :
    (convertRawStatus raw = Except.error e →
      SunssTracker.update t raw ts sd = Except.error e)
    ∧ (∀ status : Snapshot, convertRawStatus raw = Except.ok status →
        (SunssStrategy.update t.strategyKind t.strategy status sd).2
          = Except.error e →
        SunssTracker.update t raw ts sd = Except.ok
          { tracker := { t with
              strategy := (SunssStrategy.update t.strategyKind t.strategy
                status sd).1 },
            act := "boom: " ++ pyExcMessage e,
            allLog := [logLine ts status ("boom: " ++ pyExcMessage e)],
            actionLog := [logLine ts status ("boom: " ++ pyExcMessage e)],
            commands := ["boom: " ++ pyExcMessage e] }) := by
  constructor
  · intro h
    rw [SunssTracker.update, h]
  · intro status h1 h2
    rw [update_eq_ok h1, updateWithStatus]
    simp only [h2, decisionOf]
    rw [if_pos (boom_ne_empty (pyExcMessage e))]
    rfl

/-- Witness for C2: the fresh guiding tracker on the full raw status
with the sun down hits the startSunss AttributeError, and update
returns the boom record. -/
theorem update_error_policy_witness :
    SunssTracker.update guidingTracker rawFull "2021-01-01T00:00:00" true
      = Except.ok
          { tracker := { guidingTracker with
              strategy := (SunssStrategy.update guidingTracker.strategyKind
                guidingTracker.strategy guidingSnap true).1 },
            act := "boom: " ++ pyExcMessage PyExc.attributeError,
            allLog := [logLine "2021-01-01T00:00:00" guidingSnap
              ("boom: " ++ pyExcMessage PyExc.attributeError)],
            actionLog := [logLine "2021-01-01T00:00:00" guidingSnap
              ("boom: " ++ pyExcMessage PyExc.attributeError)],
            commands := ["boom: " ++ pyExcMessage PyExc.attributeError] } :=
  (update_error_policy guidingTracker rawFull "2021-01-01T00:00:00" true
      PyExc.attributeError).2 guidingSnap
    (by with_unfolding_all decide) (by decide)

/-- C7: whenever normalization succeeds, SunssTracker.update appends
exactly one line to the all-snapshots log, and appends the same line to
the action log and dispatches the decision as a command exactly when
the decision string is non-empty. -/
theorem update_logs_once_and_dispatches_iff (t : Tracker) (raw : RawStatus)
    (ts : String) (sd : Bool) (status : Snapshot)
    (h : convertRawStatus raw = Except.ok status) :
    ∃ r : UpdateResult, SunssTracker.update t raw ts sd = Except.ok r
      ∧ r.allLog.length = 1
      ∧ (r.act ≠ "" → r.actionLog = r.allLog ∧ r.commands = [r.act])
      ∧ (r.act = "" → r.actionLog = [] ∧ r.commands = []) := by
  refine ⟨updateWithStatus t status ts sd, update_eq_ok h, rfl, ?_, ?_⟩
  · simp only [updateWithStatus]
    intro hact
    rw [if_pos hact]
    exact ⟨rfl, rfl⟩
  · simp only [updateWithStatus]
    intro hact
    rw [if_neg (by simp [hact])]
    exact ⟨rfl, rfl⟩

/-- Witness for C7 on the full raw status and the default tracker. -/
theorem update_logs_once_and_dispatches_iff_witness :
    ∃ r : UpdateResult,
      SunssTracker.update tracker0 rawFull "2021-01-01T00:00:00" true
        = Except.ok r
      ∧ r.allLog.length = 1
      ∧ (r.act ≠ "" → r.actionLog = r.allLog ∧ r.commands = [r.act])
      ∧ (r.act = "" → r.actionLog = [] ∧ r.commands = []) :=
  update_logs_once_and_dispatches_iff tracker0 rawFull "2021-01-01T00:00:00"
    true guidingSnap (by with_unfolding_all decide)

/-- C4: for every strategy variant, state, snapshot and sun state, an
action returned without an exception is never a start action while
sunss_state is running or tracking, never the stop action while it is
stopped, and whenever the update leaves sunss_state unchanged the
action is the empty string. -/
theorem update_never_redundant (k : StrategyKind) (s : StrategyState)
    (n : Snapshot) (sd : Bool) (act : String)
    (h : (SunssStrategy.update k s n sd).2 = Except.ok act) :
    (s.sunssState ≠ "stopped" →
      act ≠ "startExposures" ∧ ∀ r d : Rat, act ≠ trackCmd r d)
    ∧ (s.sunssState = "stopped" → act ≠ "stop")
    ∧ ((SunssStrategy.update k s n sd).1.sunssState = s.sunssState →
        act = "") := by
  cases k
  case idle =>
    simp only [SunssStrategy.update, IdleStrategy.update] at h ⊢
    have ha : "" = act := by simpa using h
    subst ha
    exact ⟨fun _ => ⟨by decide, fun r d => empty_ne_trackCmd r d⟩,
      fun _ => by decide, fun _ => rfl⟩
  case untracked =>
    simp only [SunssStrategy.update, UntrackedStrategy.update, okA, stopSunss,
      startSunss] at h ⊢
    split_ifs at h ⊢ <;>
      simp_all [sunssIsRunning, empty_ne_trackCmd, stop_ne_trackCmd] <;>
      subst h <;>
      first
        | exact (by decide)
        | exact ⟨by decide, fun r d => empty_ne_trackCmd r d⟩
        | exact ⟨⟨by decide, fun r d => stop_ne_trackCmd r d⟩,
            fun hc => absurd hc.symm (by assumption)⟩
  case guiding =>
    simp only [SunssStrategy.update, GuidingStrategy.update, okA, stopSunss,
      startSunss] at h ⊢
    split_ifs at h ⊢ <;>
      simp_all [sunssIsRunning, empty_ne_trackCmd, stop_ne_trackCmd] <;>
      subst h <;>
      first
        | exact (by decide)
        | exact ⟨by decide, fun r d => empty_ne_trackCmd r d⟩
        | exact ⟨⟨by decide, fun r d => stop_ne_trackCmd r d⟩,
            fun hc => absurd hc.symm (by assumption)⟩

/-- Witness for C4: the untracked start transition at the concrete
open-and-tracking snapshot. -/
theorem update_never_redundant_witness :
    (initState.sunssState ≠ "stopped" →
      "startExposures" ≠ "startExposures"
      ∧ ∀ r d : Rat, "startExposures" ≠ trackCmd r d)
    ∧ (initState.sunssState = "stopped" → "startExposures" ≠ "stop")
    ∧ ((SunssStrategy.update StrategyKind.untracked initState trackingSnap
        true).1.sunssState = initState.sunssState → "startExposures" = "") :=
  update_never_redundant StrategyKind.untracked initState trackingSnap true
    "startExposures" (by decide)

end Sunss
